import Mathlib

/-!
Verification of the Visera frontend auth client against its specification.

The definitions below are a shallow embedding of the TypeScript sources:
  app/lib/auth/storage.ts      (tokenStorage, userStorage, clearAuthStorage)
  app/lib/api/client.ts        (getApiUrl, handleAuthError, apiRequest;
                                both the legacy localStorage-token variant and
                                the current cookie-based variant)
  app/lib/auth/context.tsx     (AuthProvider state and transitions, both the
                                cookie-based and the localStorage-token variant)
  app/lib/types/auth.ts        (User, LoginResponse)
  app/(auth)/verify-otp/page.tsx (OTP input sanitization and submit guard)

JavaScript strings are modelled as Lean String (ASCII case mapping), the
absence of a browser window as a Boolean flag, localStorage as an association
list, and fallible JS operations (JSON.parse, property access on null,
toLowerCase on a non-string) as Except.
-/

/-! ## Basic string helpers (JS semantics) -/

/-- JS String.prototype.startsWith on character lists. -/
def startsWithL : List Char → List Char → Bool
  | _, [] => true
  | [], _ :: _ => false
  | c :: cs, p :: ps => c == p && startsWithL cs ps

/-- JS String.prototype.includes (substring occurrence) on character lists. -/
def containsL : List Char → List Char → Bool
  | [], pat => pat.isEmpty
  | c :: cs, pat => startsWithL (c :: cs) pat || containsL cs pat

/-- JS s.includes(pat). -/
def strIncludes (s pat : String) : Bool :=
  containsL s.data pat.data

/-- JS s.startsWith(pat). -/
def strStartsWith (s pat : String) : Bool :=
  startsWithL s.data pat.data

/-- JS String.prototype.toLowerCase (ASCII case mapping). -/
def strLower (s : String) : String :=
  String.mk (s.data.map Char.toLower)

/-- JS truthiness of a string value: the empty string is falsy. -/
def jsTruthyStr (s : String) : Bool :=
  !s.isEmpty

/-- Characters kept by the regex [^A-Z0-9]/gi replacement in the OTP page:
ASCII letters (either case) and digits. -/
def isAsciiAlnum (c : Char) : Bool :=
  (65 ≤ c.toNat && c.toNat ≤ 90) ||
  (97 ≤ c.toNat && c.toNat ≤ 122) ||
  (48 ≤ c.toNat && c.toNat ≤ 57)

/-- An uppercase ASCII letter or digit, the alphabet OTP code characters are
sanitized into. -/
def isUpperAlnum (c : Char) : Bool :=
  (65 ≤ c.toNat && c.toNat ≤ 90) || (48 ≤ c.toNat && c.toNat ≤ 57)

/-- Characters encodeURIComponent leaves unescaped:
A-Z a-z 0-9 - _ . ! ~ * apostrophe ( ). -/
def isUriUnreserved (c : Char) : Bool :=
  isAsciiAlnum c ||
  c ∈ ([Char.ofNat 45, Char.ofNat 95, Char.ofNat 46, Char.ofNat 33,
        Char.ofNat 126, Char.ofNat 42, Char.ofNat 39, Char.ofNat 40,
        Char.ofNat 41] : List Char)

/-- Hexadecimal digit for percent-encoding. -/
def hexDigit (n : Nat) : String :=
  String.singleton ((("0123456789ABCDEF").data.getD n (Char.ofNat 48)))

/-- Percent-encoding of one byte. -/
def percentByte (b : UInt8) : String :=
  "%" ++ hexDigit (b.toNat / 16) ++ hexDigit (b.toNat % 16)

/-- encodeURIComponent on one character: unreserved characters pass through,
everything else is percent-encoded from its UTF-8 bytes. -/
def encChar (c : Char) : String :=
  if isUriUnreserved c then String.singleton c
  else String.join (((String.singleton c).toUTF8.toList).map percentByte)

/-- JS encodeURIComponent. -/
def encodeURIComponent (s : String) : String :=
  String.join (s.data.map encChar)

/-- The regex replace(/\/$/, "") in getApiUrl: strip one trailing slash. -/
def stripTrailingSlash (s : String) : String :=
  if s.endsWith "/" then s.dropRight 1 else s

/-! ## A small model of JavaScript runtime values

response.json() produces an arbitrary JSON value; property access and string
coercion follow JS semantics. -/

/-- A JavaScript value as far as the API client can observe one. -/
inductive JsValue where
  | undefv
  | nullv
  | boolv (b : Bool)
  | numv (n : Int)
  | strv (s : String)
  | arrv (elems : List JsValue)
  | objv (fields : List (String × JsValue))
deriving Repr

/-- JS truthiness: undefined, null, false, 0 and the empty string are falsy. -/
def jsTruthy : JsValue → Bool
  | .undefv => false
  | .nullv => false
  | .boolv b => b
  | .numv n => n != 0
  | .strv s => !s.isEmpty
  | .arrv _ => true
  | .objv _ => true

/-- JS logical-or a || b. -/
def jsOr (a b : JsValue) : JsValue :=
  if jsTruthy a then a else b

mutual

/-- JS String(v) coercion as used by the Error constructor. -/
def jsToString : JsValue → String
  | .undefv => "undefined"
  | .nullv => "null"
  | .boolv true => "true"
  | .boolv false => "false"
  | .numv n => toString n
  | .strv s => s
  | .arrv es => String.intercalate "," (jsArrStrings es)
  | .objv _ => "[object Object]"

/-- Array elements under Array.prototype.toString: null and undefined print
as empty strings. -/
def jsArrStrings : List JsValue → List String
  | [] => []
  | .undefv :: rest => "" :: jsArrStrings rest
  | .nullv :: rest => "" :: jsArrStrings rest
  | v :: rest => jsToString v :: jsArrStrings rest

end

/-- JS property access v.k: throws TypeError on null and undefined, yields
undefined for a missing key or a non-object base. -/
def jsGetField : JsValue → String → Except Unit JsValue
  | .undefv, _ => .error ()
  | .nullv, _ => .error ()
  | .objv fs, k => .ok ((fs.lookup k).getD .undefv)
  | _, _ => .ok .undefv

/-- JS v.toLowerCase(): defined on strings, TypeError otherwise
(ASCII case mapping modelled). -/
def jsToLowerCase : JsValue → Except Unit String
  | .strv s => .ok (strLower s)
  | _ => .error ()

/-! ## localStorage and app/lib/auth/storage.ts -/

/-- The browser localStorage, keyed by string. -/
abbrev Store := List (String × String)

/-- localStorage.getItem. -/
def storeGet (s : Store) (k : String) : Option String :=
  s.lookup k

/-- localStorage.removeItem. -/
def storeRemove (s : Store) (k : String) : Store :=
  s.filter (fun p => p.1 ≠ k)

/-- localStorage.setItem. -/
def storeSet (s : Store) (k v : String) : Store :=
  (k, v) :: storeRemove s k

/-- The ambient browser environment seen by the client code. -/
structure BrowserEnv where
  /-- typeof window is not undefined (running in a browser). -/
  windowDefined : Bool
  /-- window.location.pathname. -/
  currentPath : String
  /-- process.env.NEXT_PUBLIC_API_URL. -/
  apiUrlEnv : Option String

/-- Result of one storage.ts operation: the value produced, the resulting
localStorage contents, and how many localStorage calls were made. -/
structure StorageResult (α : Type) where
  value : α
  store : Store
  localStorageCalls : Nat
deriving Repr, DecidableEq

def TOKEN_KEY : String := "visera_auth_token"

def USER_KEY : String := "visera_user"

/-- storage.ts tokenStorage.getToken. -/
def tokenStorage.getToken (env : BrowserEnv) (s : Store) : StorageResult (Option String) :=
  if env.windowDefined then ⟨storeGet s TOKEN_KEY, s, 1⟩ else ⟨none, s, 0⟩

/-- storage.ts tokenStorage.setToken. -/
def tokenStorage.setToken (env : BrowserEnv) (token : String) (s : Store) : StorageResult Unit :=
  if env.windowDefined then ⟨(), storeSet s TOKEN_KEY token, 1⟩ else ⟨(), s, 0⟩

/-- storage.ts tokenStorage.removeToken. -/
def tokenStorage.removeToken (env : BrowserEnv) (s : Store) : StorageResult Unit :=
  if env.windowDefined then ⟨(), storeRemove s TOKEN_KEY, 1⟩ else ⟨(), s, 0⟩

/-- storage.ts userStorage.getUser. -/
def userStorage.getUser (env : BrowserEnv) (s : Store) : StorageResult (Option String) :=
  if env.windowDefined then ⟨storeGet s USER_KEY, s, 1⟩ else ⟨none, s, 0⟩

/-- storage.ts userStorage.setUser. -/
def userStorage.setUser (env : BrowserEnv) (user : String) (s : Store) : StorageResult Unit :=
  if env.windowDefined then ⟨(), storeSet s USER_KEY user, 1⟩ else ⟨(), s, 0⟩

/-- storage.ts userStorage.removeUser. -/
def userStorage.removeUser (env : BrowserEnv) (s : Store) : StorageResult Unit :=
  if env.windowDefined then ⟨(), storeRemove s USER_KEY, 1⟩ else ⟨(), s, 0⟩

/-- storage.ts clearAuthStorage: removeToken then removeUser. -/
def clearAuthStorage (env : BrowserEnv) (s : Store) : StorageResult Unit :=
  let r1 := tokenStorage.removeToken env s
  let r2 := userStorage.removeUser env r1.store
  ⟨(), r2.store, r1.localStorageCalls + r2.localStorageCalls⟩

/-! ## app/lib/api/client.ts -/

/-- getApiUrl: environment variable with falsy fallback, one trailing slash
stripped. -/
def getApiUrl (apiUrlEnv : Option String) : String :=
  let apiUrl :=
    match apiUrlEnv with
    | some s => if s.isEmpty then "http://localhost:8001" else s
    | none => "http://localhost:8001"
  stripTrailingSlash apiUrl

/-- The fields of a fetch Response the client reads. response.ok is derived
from the status, as in the fetch API. The jsonBody field is the outcome of
response.json(): a parse failure rejects. -/
structure HttpResponse where
  status : Nat
  statusText : String
  /-- The content-type response header, none when absent. -/
  contentType : Option String
  /-- Result of parsing the body as JSON. -/
  jsonBody : Except Unit JsValue

/-- response.ok: status in the 200 range. -/
def respOk (r : HttpResponse) : Bool :=
  200 ≤ r.status && r.status < 300

/-- The RequestInit options apiRequest consumes. -/
structure RequestOptions where
  method : Option String := none
  body : Option String := none
  headers : List (String × String) := []

/-- Header-object lookup: the first binding for a key wins (assoc lists here
model JS objects whose later spread entries are placed first). -/
def headerLookup (hs : List (String × String)) (k : String) : Option String :=
  hs.lookup k

/-- The object spread of extra over base: extra bindings override base ones. -/
def mergeHeaders (base extra : List (String × String)) : List (String × String) :=
  extra ++ base

/-- A value thrown (promise rejection) by apiRequest. -/
inductive Thrown where
  /-- new Error(message). -/
  | errMsg (msg : String)
  /-- A fetch network failure rejection. -/
  | networkError
  /-- TypeError from calling toLowerCase on a non-string error detail. -/
  | typeError
  /-- SyntaxError from response.json() on the success path. -/
  | syntaxError
deriving Repr, DecidableEq

/-- The value apiRequest resolves with. -/
inductive ApiSuccess where
  /-- The 204 branch returns undefined. -/
  | jsUndefined
  /-- The parsed JSON body. -/
  | parsed (v : JsValue)
  /-- The empty-object fallback for non-JSON bodies. -/
  | emptyObj
deriving Repr

/-- Everything observable about one apiRequest call: the URLs fetched (in
order), the headers and credentials mode given to fetch, the number of
response.json() invocations, the window.location.href assignment performed, if
any, and the result (resolution or rejection). -/
structure ApiOutcome where
  fetches : List String
  sentHeaders : List (String × String)
  credentialsInclude : Bool
  jsonParseCalls : Nat
  redirect : Option String
  result : Except Thrown ApiSuccess

/-- Computation of errorMessage and errorDetail in apiRequest's non-ok branch:
errorMessage starts as "An error occurred" and errorDetail as ""; if the body
parses as JSON and reading its detail property does not throw, both are
updated with detail-or-fallback, otherwise the catch sets errorMessage to
"HTTP status: statusText". -/
def errorInfo (resp : HttpResponse) : String × JsValue :=
  match resp.jsonBody with
  | .error _ => ("HTTP " ++ toString resp.status ++ ": " ++ resp.statusText, .strv "")
  | .ok body =>
    match jsGetField body "detail" with
    | .error _ => ("HTTP " ++ toString resp.status ++ ": " ++ resp.statusText, .strv "")
    | .ok d => (jsToString (jsOr d (.strv "An error occurred")), jsOr d (.strv ""))

/-- handleAuthError from client.ts: on 401 redirect to /login (carrying the
current path as a redirect query parameter unless already on /login); on 403
redirect to /verify-otp when the lowercased detail mentions email
verification, otherwise to /login; outside a browser no redirect happens.
Returns the redirect target, or a TypeError when toLowerCase is applied to a
non-string detail. -/
def handleAuthError (status : Nat) (errorDetail : JsValue) (env : BrowserEnv) :
    Except Unit (Option String) :=
  if status = 401 then
    if env.windowDefined then
      let currentPath := env.currentPath
      let loginUrl := "/login" ++
        (if currentPath ≠ "/login" then "?redirect=" ++ encodeURIComponent currentPath else "")
      .ok (some loginUrl)
    else .ok (none)
  else if status = 403 then
    match jsToLowerCase errorDetail with
    | .error _ => .error ()
    | .ok low =>
      let isEmailVerificationIssue :=
        strIncludes low "email verification" || strIncludes low "verification required"
      if isEmailVerificationIssue && env.windowDefined then .ok (some "/verify-otp")
      else if env.windowDefined then .ok (some "/login")
      else .ok (none)
  else .ok (none)

/-- The current (cookie-based) apiRequest from client.ts: one fetch with
merged headers and credentials "include"; non-ok responses produce an Error
whose message prefers the JSON detail field, with 401/403 first routed through
handleAuthError; ok responses resolve with undefined on 204, the parsed JSON
body when the content-type includes application/json, and an empty object
otherwise. fetchResult is none for a network failure, otherwise the response. -/
def apiRequest (endpoint : String) (options : RequestOptions) (env : BrowserEnv)
    (fetchResult : Option HttpResponse) : ApiOutcome :=
  let url := getApiUrl env.apiUrlEnv ++ endpoint
  let headers := mergeHeaders [("Content-Type", "application/json")] options.headers
  match fetchResult with
  | none =>
    { fetches := [url], sentHeaders := headers, credentialsInclude := true,
      jsonParseCalls := 0, redirect := none, result := .error .networkError }
  | some resp =>
    if respOk resp then
      if resp.status = 204 then
        { fetches := [url], sentHeaders := headers, credentialsInclude := true,
          jsonParseCalls := 0, redirect := none, result := .ok .jsUndefined }
      else
        match resp.contentType with
        | some ct =>
          if jsTruthyStr ct && strIncludes ct "application/json" then
            match resp.jsonBody with
            | .ok v =>
              { fetches := [url], sentHeaders := headers, credentialsInclude := true,
                jsonParseCalls := 1, redirect := none, result := .ok (.parsed v) }
            | .error _ =>
              { fetches := [url], sentHeaders := headers, credentialsInclude := true,
                jsonParseCalls := 1, redirect := none, result := .error .syntaxError }
          else
            { fetches := [url], sentHeaders := headers, credentialsInclude := true,
              jsonParseCalls := 0, redirect := none, result := .ok .emptyObj }
        | none =>
          { fetches := [url], sentHeaders := headers, credentialsInclude := true,
            jsonParseCalls := 0, redirect := none, result := .ok .emptyObj }
    else
      let info := errorInfo resp
      if resp.status = 401 || resp.status = 403 then
        match handleAuthError resp.status info.2 env with
        | .ok r =>
          { fetches := [url], sentHeaders := headers, credentialsInclude := true,
            jsonParseCalls := 1, redirect := r, result := .error (.errMsg info.1) }
        | .error _ =>
          { fetches := [url], sentHeaders := headers, credentialsInclude := true,
            jsonParseCalls := 1, redirect := none, result := .error .typeError }
      else
        { fetches := [url], sentHeaders := headers, credentialsInclude := true,
          jsonParseCalls := 1, redirect := none, result := .error (.errMsg info.1) }

/-- The legacy apiRequest variant: reads the token from localStorage, attaches
it as a Bearer Authorization header when truthy, sends without the credentials
option, has no 204 special case and no auth-redirect handling. -/
def apiRequestLegacy (endpoint : String) (options : RequestOptions) (env : BrowserEnv)
    (store : Store) (fetchResult : Option HttpResponse) : ApiOutcome :=
  let url := getApiUrl env.apiUrlEnv ++ endpoint
  let token := (tokenStorage.getToken env store).value
  let headers0 := mergeHeaders [("Content-Type", "application/json")] options.headers
  let headers :=
    match token with
    | some t => if jsTruthyStr t then ("Authorization", "Bearer " ++ t) :: headers0 else headers0
    | none => headers0
  match fetchResult with
  | none =>
    { fetches := [url], sentHeaders := headers, credentialsInclude := false,
      jsonParseCalls := 0, redirect := none, result := .error .networkError }
  | some resp =>
    if respOk resp then
      match resp.contentType with
      | some ct =>
        if jsTruthyStr ct && strIncludes ct "application/json" then
          match resp.jsonBody with
          | .ok v =>
            { fetches := [url], sentHeaders := headers, credentialsInclude := false,
              jsonParseCalls := 1, redirect := none, result := .ok (.parsed v) }
          | .error _ =>
            { fetches := [url], sentHeaders := headers, credentialsInclude := false,
              jsonParseCalls := 1, redirect := none, result := .error .syntaxError }
        else
          { fetches := [url], sentHeaders := headers, credentialsInclude := false,
            jsonParseCalls := 0, redirect := none, result := .ok .emptyObj }
      | none =>
        { fetches := [url], sentHeaders := headers, credentialsInclude := false,
          jsonParseCalls := 0, redirect := none, result := .ok .emptyObj }
    else
      let info := errorInfo resp
      { fetches := [url], sentHeaders := headers, credentialsInclude := false,
        jsonParseCalls := 1, redirect := none, result := .error (.errMsg info.1) }

/-! ## app/lib/types/auth.ts -/

/-- The User interface: the only user shape the client ever receives. -/
structure User where
  id : Int
  email : String
  created_at : String
  is_email_verified : Bool
deriving Repr, DecidableEq

/-- The field names declared on the User interface, in declaration order. -/
def userFieldNames : List String :=
  ["id", "email", "created_at", "is_email_verified"]

/-- The LoginResponse interface. -/
structure LoginResponse where
  access_token : String
  token_type : String
  user : User
deriving Repr, DecidableEq

/-- The field names declared on the LoginResponse interface. -/
def loginResponseFieldNames : List String :=
  ["access_token", "token_type", "user"]

/-- JSON string escaping for the characters JSON.stringify must escape in the
strings at hand (quote and backslash; ASCII-level model). -/
def jsonEscapeChar (c : Char) : String :=
  if c = Char.ofNat 34 then "\\" ++ String.singleton (Char.ofNat 34)
  else if c = Char.ofNat 92 then "\\\\"
  else String.singleton c

def jsonEscape (s : String) : String :=
  String.join (s.data.map jsonEscapeChar)

def boolJson (b : Bool) : String :=
  if b then "true" else "false"

/-- JSON.stringify of a User value, keys in declaration order. -/
def userToJsonString (u : User) : String :=
  "\x7b" ++ String.singleton (Char.ofNat 34) ++ "id" ++ String.singleton (Char.ofNat 34) ++
  ":" ++ toString u.id ++
  "," ++ String.singleton (Char.ofNat 34) ++ "email" ++ String.singleton (Char.ofNat 34) ++
  ":" ++ String.singleton (Char.ofNat 34) ++ jsonEscape u.email ++ String.singleton (Char.ofNat 34) ++
  "," ++ String.singleton (Char.ofNat 34) ++ "created_at" ++ String.singleton (Char.ofNat 34) ++
  ":" ++ String.singleton (Char.ofNat 34) ++ jsonEscape u.created_at ++ String.singleton (Char.ofNat 34) ++
  "," ++ String.singleton (Char.ofNat 34) ++ "is_email_verified" ++ String.singleton (Char.ofNat 34) ++
  ":" ++ boolJson u.is_email_verified ++ "\x7d"

/-! ## app/lib/auth/context.tsx

Two AuthProvider variants exist in the sources: the current cookie-based one
(no token state, authentication carried by the httpOnly cookie) and the
legacy localStorage-token one. Each is modelled as explicit state passing. -/

/-- State of the cookie-based AuthProvider, together with the localStorage
contents and the current route. -/
structure CookieAuthState where
  user : Option User
  store : Store
  route : String
deriving Repr, DecidableEq

/-- Cookie-variant logout: authApi.logout() is awaited inside try (its failure
only logged), and the finally block unconditionally clears the user state and
auth storage and navigates to /login. backendLogoutOk records whether the
backend call succeeded; the resulting state does not depend on it. -/
def cookieLogout (env : BrowserEnv) (backendLogoutOk : Bool) (s : CookieAuthState) :
    CookieAuthState :=
  let _ := backendLogoutOk
  { user := none, store := (clearAuthStorage env s.store).store, route := "/login" }

/-- Cookie-variant login after a successful authApi.login response. -/
def cookieLoginSuccess (env : BrowserEnv) (resp : LoginResponse) (s : CookieAuthState) :
    CookieAuthState :=
  { user := some resp.user,
    store := (userStorage.setUser env (userToJsonString resp.user) s.store).store,
    route := s.route }

/-- Cookie-variant refreshUser after a successful getCurrentUser response. -/
def cookieRefreshSuccess (env : BrowserEnv) (u : User) (s : CookieAuthState) :
    CookieAuthState :=
  { user := some u,
    store := (userStorage.setUser env (userToJsonString u) s.store).store,
    route := s.route }

/-- Cookie-variant refreshUser when getCurrentUser fails: clear user and
storage (the API client performs any redirect). -/
def cookieRefreshFailure (env : BrowserEnv) (s : CookieAuthState) : CookieAuthState :=
  { user := none, store := (clearAuthStorage env s.store).store, route := s.route }

/-- State of the legacy localStorage-token AuthProvider. -/
structure TokenAuthState where
  user : Option User
  token : Option String
  store : Store
  route : String
deriving Repr, DecidableEq

/-- Token-variant login: set token and user state, then persist both to
localStorage. -/
def tokenLoginSuccess (env : BrowserEnv) (resp : LoginResponse) (s : TokenAuthState) :
    TokenAuthState :=
  { user := some resp.user,
    token := some resp.access_token,
    store := (userStorage.setUser env (userToJsonString resp.user)
      ((tokenStorage.setToken env resp.access_token s.store).store)).store,
    route := s.route }

/-- Token-variant logout: null both state fields, clear storage, go to /login
(no backend call in this variant). -/
def tokenLogout (env : BrowserEnv) (s : TokenAuthState) : TokenAuthState :=
  { user := none, token := none,
    store := (clearAuthStorage env s.store).store, route := "/login" }

/-- The value object the AuthProvider renders into the context. -/
structure AuthContextValue where
  user : Option User
  token : Option String
  isAuthenticated : Bool
  isLoading : Bool
deriving Repr, DecidableEq

/-- JS truthiness of a nullable string (!!token). -/
def jsTruthyStrOpt : Option String → Bool
  | some t => jsTruthyStr t
  | none => false

/-- The context value built by the cookie-based AuthProvider:
token is the constant null and isAuthenticated is !!user. -/
def cookieContextValue (s : CookieAuthState) (isLoading : Bool) : AuthContextValue :=
  { user := s.user, token := none, isAuthenticated := s.user.isSome, isLoading := isLoading }

/-- The context value built by the token-based AuthProvider:
isAuthenticated is !!user && !!token. -/
def tokenContextValue (s : TokenAuthState) (isLoading : Bool) : AuthContextValue :=
  { user := s.user, token := s.token,
    isAuthenticated := s.user.isSome && jsTruthyStrOpt s.token,
    isLoading := isLoading }

/-- States the token-based AuthProvider can reach in a fresh browser (empty
localStorage lazily hydrates user and token to null) under login responses
and logouts. -/
inductive TokenAuthReachable (env : BrowserEnv) : TokenAuthState → Prop where
  | start : TokenAuthReachable env
      { user := none, token := (tokenStorage.getToken env []).value, store := [], route := "/" }
  | login (resp : LoginResponse) {s : TokenAuthState} :
      TokenAuthReachable env s → TokenAuthReachable env (tokenLoginSuccess env resp s)
  | logout {s : TokenAuthState} :
      TokenAuthReachable env s → TokenAuthReachable env (tokenLogout env s)

/-! ## app/(auth)/verify-otp/page.tsx -/

/-- Sanitization applied to a single OTP input:
value.replace of non-alphanumerics by nothing, toUpperCase, slice(0, 1). -/
def sanitizeOtpChar (value : String) : String :=
  String.mk (((value.data.filter isAsciiAlnum).map Char.toUpper).take 1)

/-- Sanitization applied to pasted text: same replacement and uppercasing,
then slice(0, 6). -/
def sanitizeOtpPaste (text : String) : String :=
  String.mk (((text.data.filter isAsciiAlnum).map Char.toUpper).take 6)

/-- The initial OTP state: six empty strings. -/
def initialOtp : List String :=
  ["", "", "", "", "", ""]

/-- handleOtpChange: entry at the given index becomes the sanitized value. -/
def handleOtpChange (otp : List String) (index : Nat) (value : String) : List String :=
  otp.set index (sanitizeOtpChar value)

/-- The paste handler: copy the otp array and overwrite entries 0..5 with the
corresponding character of the sanitized clipboard text, or the empty string
past its end. -/
def handleOtpPaste (otp : List String) (text : String) : List String :=
  let sanitized := sanitizeOtpPaste text
  (List.range 6).foldl
    (fun acc i =>
      acc.set i (match sanitized.data.get? i with
        | some c => String.singleton c
        | none => ""))
    otp

/-- otp.join("") as computed by handleSubmit. -/
def otpCode (otp : List String) : String :=
  String.join otp

/-- What the submit handler does before any asynchronous work: either the
verification request authApi.verifyOtp(email, code) goes out, or an inline
error is set and no request is made. -/
inductive SubmitAction where
  | request (email code : String)
  | inlineError (msg : String)
deriving Repr, DecidableEq

/-- handleSubmit from the verify-OTP page: reject codes whose joined length is
not 6, then reject a missing email, otherwise send the request. -/
def handleSubmit (otp : List String) (email : String) : SubmitAction :=
  let code := otpCode otp
  if code.length ≠ 6 then .inlineError "Please enter the complete 6-digit code"
  else if email.isEmpty then .inlineError "Email is required"
  else .request email code

/-- OTP states reachable on the verify-OTP page: the initial six empty
entries, single-input edits, pastes, and the resets performed on error or
resend. -/
inductive OtpReachable : List String → Prop where
  | start : OtpReachable initialOtp
  | change {s : List String} (index : Nat) (value : String) :
      OtpReachable s → OtpReachable (handleOtpChange s index value)
  | paste {s : List String} (text : String) :
      OtpReachable s → OtpReachable (handleOtpPaste s text)
  | reset {s : List String} :
      OtpReachable s → OtpReachable initialOtp

/-! ## Helper lemmas -/

theorem upperAlnum_ofNat_sub (m : Nat) (h1 : 97 ≤ m) (h2 : m ≤ 122) :
    isUpperAlnum (Char.ofNat (m - 32)) = true := by
  interval_cases m <;> decide

/-- Sanitized characters are uppercase alphanumerics. -/
theorem upper_of_alnum (c : Char) (h : isAsciiAlnum c = true) :
    isUpperAlnum (Char.toUpper c) = true := by
  unfold Char.toUpper
  unfold isAsciiAlnum at h
  dsimp only
  split
  case isTrue hcond => exact upperAlnum_ofNat_sub c.toNat hcond.1 hcond.2
  case isFalse hcond =>
    unfold isUpperAlnum
    simp only [Bool.or_eq_true, Bool.and_eq_true, decide_eq_true_eq] at h ⊢
    omega

theorem storeGet_remove_self (s : Store) (k : String) :
    storeGet (storeRemove s k) k = none := by
  induction s with
  | nil => rfl
  | cons p rest ih =>
    by_cases hp : p.1 = k
    · simpa [storeRemove, storeGet, hp] using ih
    · simpa [storeRemove, storeGet, List.lookup, hp, beq_false_of_ne (Ne.symm hp)] using ih

theorem storeGet_remove_ne (s : Store) (k k2 : String) (h : k2 ≠ k) :
    storeGet (storeRemove s k) k2 = storeGet s k2 := by
  induction s with
  | nil => rfl
  | cons p rest ih =>
    by_cases hp : p.1 = k
    · simpa [storeRemove, storeGet, List.lookup, hp, beq_false_of_ne h] using ih
    · by_cases hq : k2 = p.1
      · simp [storeRemove, storeGet, hp, List.lookup, hq]
      · simpa [storeRemove, storeGet, List.lookup, hp, beq_false_of_ne hq] using ih

theorem storeGet_set_ne (s : Store) (k k2 v : String) (h : k2 ≠ k) :
    storeGet (storeSet s k v) k2 = storeGet s k2 := by
  simp only [storeSet, storeGet, List.lookup, beq_false_of_ne h]
  exact storeGet_remove_ne s k k2 h

theorem lookupAppend (l1 l2 : List (String × String)) (k : String) :
    (l1 ++ l2).lookup k = ((l1.lookup k).or (l2.lookup k)) := by
  induction l1 with
  | nil => simp [List.lookup]
  | cons p rest ih =>
    by_cases hp : k = p.1
    · simp [List.lookup, hp]
    · simp [List.lookup, beq_false_of_ne hp, ih]

/-- A shared concrete user for witnesses. -/
def sampleUser : User :=
  ⟨1, "alice@example.com", "2026-01-01T00:00:00Z", true⟩

/-- A shared concrete browser environment for witnesses. -/
def browserEnv : BrowserEnv :=
  ⟨true, "/dashboard", none⟩

/-! ## Claim theorems -/

/-- C10: in a server-side-rendering environment (window undefined) every
tokenStorage and userStorage operation is total and inert: getters return
null, setters and removers leave the store unchanged, and no localStorage
call is made by any of them, clearAuthStorage included. -/
theorem storage_ssr_noop (env : BrowserEnv) (s : Store) (t u : String)
    (h : env.windowDefined = false) :
    (tokenStorage.getToken env s).value = none ∧
    (tokenStorage.getToken env s).store = s ∧
    (tokenStorage.getToken env s).localStorageCalls = 0 ∧
    (tokenStorage.setToken env t s).store = s ∧
    (tokenStorage.setToken env t s).localStorageCalls = 0 ∧
    (tokenStorage.removeToken env s).store = s ∧
    (tokenStorage.removeToken env s).localStorageCalls = 0 ∧
    (userStorage.getUser env s).value = none ∧
    (userStorage.getUser env s).store = s ∧
    (userStorage.getUser env s).localStorageCalls = 0 ∧
    (userStorage.setUser env u s).store = s ∧
    (userStorage.setUser env u s).localStorageCalls = 0 ∧
    (userStorage.removeUser env s).store = s ∧
    (userStorage.removeUser env s).localStorageCalls = 0 ∧
    (clearAuthStorage env s).store = s ∧
    (clearAuthStorage env s).localStorageCalls = 0 := by
  simp [tokenStorage.getToken, tokenStorage.setToken, tokenStorage.removeToken,
        userStorage.getUser, userStorage.setUser, userStorage.removeUser,
        clearAuthStorage, h]

/-- Witness for C10 at a concrete SSR environment and populated store. -/
theorem storage_ssr_noop_witness :
    (BrowserEnv.mk false "/settings" none).windowDefined = false ∧
    (tokenStorage.getToken (BrowserEnv.mk false "/settings" none)
      [(TOKEN_KEY, "tok")]).value = none :=
  ⟨rfl, (storage_ssr_noop (BrowserEnv.mk false "/settings" none)
    [(TOKEN_KEY, "tok")] "a" "b" rfl).1⟩

/-- C4: the User shape the client receives and stores consists exactly of id,
email, created_at and is_email_verified — no password or password-hash field
exists on User or LoginResponse, and a User (resp. LoginResponse) value is
fully determined by those declared fields. -/
theorem user_no_password_exposed :
    (userFieldNames = ["id", "email", "created_at", "is_email_verified"] ∧
     "password" ∉ userFieldNames ∧ "hashed_password" ∉ userFieldNames ∧
     "password" ∉ loginResponseFieldNames ∧ "hashed_password" ∉ loginResponseFieldNames) ∧
    (∀ u v : User, u.id = v.id → u.email = v.email → u.created_at = v.created_at →
        u.is_email_verified = v.is_email_verified → u = v) ∧
    (∀ r q : LoginResponse, r.access_token = q.access_token → r.token_type = q.token_type →
        r.user = q.user → r = q) := by
  refine ⟨by decide, ?_, ?_⟩
  · intro u v h1 h2 h3 h4
    cases u; cases v; simp_all
  · intro r q h1 h2 h3
    cases r; cases q; simp_all

/-- Witness for C4 at concrete User values. -/
theorem user_no_password_exposed_witness :
    sampleUser = sampleUser :=
  user_no_password_exposed.2.1 sampleUser sampleUser rfl rfl rfl rfl

/-- C8: both apiRequest variants perform exactly one fetch, of the computed
URL, on every input — every response status, network failure and thrown
outcome included; no second request is ever issued. -/
theorem apiRequest_single_fetch (endpoint : String) (options : RequestOptions)
    (env : BrowserEnv) (store : Store) (fetchResult : Option HttpResponse) :
    (apiRequest endpoint options env fetchResult).fetches
        = [getApiUrl env.apiUrlEnv ++ endpoint] ∧
    (apiRequestLegacy endpoint options env store fetchResult).fetches
        = [getApiUrl env.apiUrlEnv ++ endpoint] := by
  constructor <;>
  · cases fetchResult with
    | none => rfl
    | some resp =>
      simp only [apiRequest, apiRequestLegacy]
      repeat first
      | rfl
      | split

/-! ### apiRequest error-path lemmas (client.ts) -/

theorem handleAuthError_str_ok (status : Nat) (d : String) (env : BrowserEnv) :
    ∃ r, handleAuthError status (.strv d) env = .ok r := by
  unfold handleAuthError
  split
  · split
    · exact ⟨_, rfl⟩
    · exact ⟨_, rfl⟩
  · split
    · dsimp only [jsToLowerCase]
      split
      · exact ⟨_, rfl⟩
      · split
        · exact ⟨_, rfl⟩
        · exact ⟨_, rfl⟩
    · exact ⟨_, rfl⟩

/-- The exact condition under which apiRequest resolves rather than rejects:
an OK status, and a parseable body whenever one will be parsed (status other
than 204 with a JSON content-type). -/
def resolvesCond (resp : HttpResponse) : Prop :=
  respOk resp = true ∧
    (resp.status = 204 ∨
     (match resp.contentType with
      | some ct => (jsTruthyStr ct && strIncludes ct "application/json") = false
      | none => True) ∨
     (∃ j, resp.jsonBody = .ok j))

theorem errorInfo_of_detail (resp : HttpResponse) (body : JsValue) (d : String)
    (hb : resp.jsonBody = .ok body) (hd : jsGetField body "detail" = .ok (.strv d))
    (hne : d ≠ "") : errorInfo resp = (d, .strv d) := by
  simp only [errorInfo]
  rw [hb]
  simp only []
  rw [hd]
  have hemp : d.isEmpty = false := by
    cases h : d.isEmpty
    · rfl
    · exact absurd ((String.isEmpty_iff d).mp h) hne
  have htr : jsTruthy (.strv d) = true := by
    simp [jsTruthy, hemp]
  simp [jsOr, htr, jsToString]

theorem apiRequest_throws_detail (endpoint : String) (options : RequestOptions)
    (env : BrowserEnv) (resp : HttpResponse)
    (hnok : respOk resp = false)
    (body : JsValue) (d : String)
    (hb : resp.jsonBody = .ok body) (hd : jsGetField body "detail" = .ok (.strv d))
    (hne : d ≠ "") :
    (apiRequest endpoint options env (some resp)).result = .error (.errMsg d) := by
  have hinfo := errorInfo_of_detail resp body d hb hd hne
  simp only [apiRequest]
  rw [if_neg (by simp [hnok]), hinfo]
  by_cases hs : ((resp.status = 401 ∨ resp.status = 403))
  · rw [if_pos (by simpa using hs)]
    obtain ⟨r, hr⟩ := handleAuthError_str_ok resp.status d env
    dsimp only
    rw [hr]
  · rw [if_neg (by simpa using hs)]

theorem apiRequest_throws_fallback (endpoint : String) (options : RequestOptions)
    (env : BrowserEnv) (resp : HttpResponse)
    (hnok : respOk resp = false) (hb : resp.jsonBody = .error ()) :
    (apiRequest endpoint options env (some resp)).result
      = .error (.errMsg ("HTTP " ++ toString resp.status ++ ": " ++ resp.statusText)) := by
  have hinfo : errorInfo resp
      = ("HTTP " ++ toString resp.status ++ ": " ++ resp.statusText, .strv "") := by
    simp only [errorInfo]
    rw [hb]
  simp only [apiRequest]
  rw [if_neg (by simp [hnok]), hinfo]
  by_cases hs : ((resp.status = 401 ∨ resp.status = 403))
  · rw [if_pos (by simpa using hs)]
    obtain ⟨r, hr⟩ := handleAuthError_str_ok resp.status "" env
    dsimp only
    rw [hr]
  · rw [if_neg (by simpa using hs)]

theorem apiRequest_resolves_iff (endpoint : String) (options : RequestOptions)
    (env : BrowserEnv) (resp : HttpResponse) :
    (apiRequest endpoint options env (some resp)).result.isOk = true ↔ resolvesCond resp := by
  unfold resolvesCond
  by_cases hr : respOk resp = true
  · by_cases h204 : resp.status = 204
    · simp only [apiRequest]
      rw [if_pos hr, if_pos h204]
      simp [Except.isOk, Except.toBool, hr, h204]
    · rcases hct : resp.contentType with _ | ct
      · simp only [apiRequest]
        rw [if_pos hr, if_neg h204, hct]
        simp [Except.isOk, Except.toBool, hr, h204]
      · by_cases hj : (jsTruthyStr ct && strIncludes ct "application/json") = true
        · rcases hb : resp.jsonBody with e | j
          · simp only [apiRequest]
            rw [if_pos hr, if_neg h204]
            simp only [hct]
            rw [if_pos hj]
            simp only [hb]
            simp [Except.isOk, Except.toBool, hr, h204, hj]
          · simp only [apiRequest]
            rw [if_pos hr, if_neg h204]
            simp only [hct]
            rw [if_pos hj]
            simp only [hb]
            simp [Except.isOk, Except.toBool, hr, h204, hj]
        · simp only [apiRequest]
          rw [if_pos hr, if_neg h204]
          simp only [hct]
          rw [if_neg hj]
          simp [Except.isOk, Except.toBool, hr, h204, hj]
  · simp only [apiRequest]
    rw [if_neg hr]
    constructor
    · intro hok
      exfalso
      revert hok
      by_cases hs : ((resp.status = 401 ∨ resp.status = 403))
      · rw [if_pos (by simpa using hs)]
        split <;> intro hok <;> simp [Except.isOk, Except.toBool] at hok
      · rw [if_neg (by simpa using hs)]
        intro hok
        simp [Except.isOk, Except.toBool] at hok
    · rintro ⟨habs, -⟩
      exact absurd habs hr

/-- C3 counterexample: an OK (status 200) response that declares
application/json but whose body fails to parse makes apiRequest reject (the
promise returned by response.json() rejects), so returning normally is not
equivalent to response.ok. -/
theorem apiRequest_ok_response_can_reject :
    respOk ⟨200, "OK", some "application/json", .error ()⟩ = true ∧
    (apiRequest "/api/v1/auth/me" {} browserEnv
        (some ⟨200, "OK", some "application/json", .error ()⟩)).result
      = .error .syntaxError :=
  ⟨rfl, rfl⟩

/-- C3 (amended): apiRequest resolves exactly when the response is OK and,
unless the status is 204 or the content-type is not JSON, its body parses;
every non-OK response rejects with an Error whose message is the JSON body's
non-empty string detail when one exists, and the fallback
"HTTP status: statusText" when the body is not JSON. -/
theorem apiRequest_error_contract (endpoint : String) (options : RequestOptions)
    (env : BrowserEnv) (resp : HttpResponse) :
    ((apiRequest endpoint options env (some resp)).result.isOk = true ↔ resolvesCond resp) ∧
    (respOk resp = false →
      ∀ body d, resp.jsonBody = .ok body → jsGetField body "detail" = .ok (.strv d) →
        d ≠ "" →
        (apiRequest endpoint options env (some resp)).result = .error (.errMsg d)) ∧
    (respOk resp = false → resp.jsonBody = .error () →
      (apiRequest endpoint options env (some resp)).result
        = .error (.errMsg ("HTTP " ++ toString resp.status ++ ": " ++ resp.statusText))) :=
  ⟨apiRequest_resolves_iff endpoint options env resp,
   fun hnok body d hb hd hne =>
     apiRequest_throws_detail endpoint options env resp hnok body d hb hd hne,
   fun hnok hb => apiRequest_throws_fallback endpoint options env resp hnok hb⟩

/-- Witness for C3 at a concrete 404 response carrying a detail message. -/
theorem apiRequest_error_contract_witness :
    respOk ⟨404, "Not Found", some "application/json",
        .ok (.objv [("detail", .strv "User not found")])⟩ = false ∧
    (apiRequest "/api/v1/users/me" {} browserEnv
        (some ⟨404, "Not Found", some "application/json",
          .ok (.objv [("detail", .strv "User not found")])⟩)).result
      = .error (.errMsg "User not found") :=
  ⟨rfl, (apiRequest_error_contract "/api/v1/users/me" {} browserEnv
      ⟨404, "Not Found", some "application/json",
        .ok (.objv [("detail", .strv "User not found")])⟩).2.1 rfl
      (.objv [("detail", .strv "User not found")]) "User not found" rfl rfl
      (by decide)⟩

/-! ### 401/403 redirect lemmas -/

theorem jsOr_str_empty (d : String) : jsOr (.strv d) (.strv "") = .strv d := by
  unfold jsOr
  split
  · rfl
  · rename_i h
    simp only [jsTruthy, Bool.not_eq_true] at h
    have hd : d = "" := by
      cases he : d.isEmpty
      · rw [he] at h; simp at h
      · exact (String.isEmpty_iff d).mp he
    rw [hd]

theorem errorInfo_snd_of_detail (resp : HttpResponse) (body : JsValue) (d : String)
    (hb : resp.jsonBody = .ok body) (hd : jsGetField body "detail" = .ok (.strv d)) :
    (errorInfo resp).2 = .strv d := by
  simp only [errorInfo]
  rw [hb]
  simp only []
  rw [hd]
  exact jsOr_str_empty d

theorem handleAuthError_401 (ed : JsValue) (env : BrowserEnv)
    (hw : env.windowDefined = true) :
    handleAuthError 401 ed env
      = .ok (some ("/login" ++ (if env.currentPath ≠ "/login"
          then "?redirect=" ++ encodeURIComponent env.currentPath else ""))) := by
  unfold handleAuthError
  rw [if_pos rfl, if_pos hw]

theorem handleAuthError_403_str (d : String) (env : BrowserEnv)
    (hw : env.windowDefined = true) :
    handleAuthError 403 (.strv d) env
      = .ok (some (if (strIncludes (strLower d) "email verification"
            || strIncludes (strLower d) "verification required") = true
          then "/verify-otp" else "/login")) := by
  unfold handleAuthError
  rw [if_neg (by decide), if_pos rfl]
  dsimp only [jsToLowerCase]
  by_cases hc : (strIncludes (strLower d) "email verification"
      || strIncludes (strLower d) "verification required") = true
  · rw [if_pos (by simp [hc, hw]), if_pos hc]
  · have hc2 : (strIncludes (strLower d) "email verification"
        || strIncludes (strLower d) "verification required") = false := by
      cases h : (strIncludes (strLower d) "email verification"
          || strIncludes (strLower d) "verification required")
      · rfl
      · exact absurd h hc
    rw [if_neg (by simp [hc2]), if_pos hw, if_neg (by simp [hc2])]

theorem handleAuthError_no_window (status : Nat) (ed : JsValue) (env : BrowserEnv)
    (hw : env.windowDefined = false) :
    handleAuthError status ed env = .ok none ∨ handleAuthError status ed env = .error () := by
  unfold handleAuthError
  split
  · rw [if_neg (by simp [hw])]
    exact .inl rfl
  · split
    · rcases hlc : jsToLowerCase ed with u | low
      · exact .inr rfl
      · left
        dsimp only
        rw [if_neg (by simp [hw]), if_neg (by simp [hw])]
    · exact .inl rfl

/-- C2 counterexample: a 403 response whose detail mentions email
verification makes the client redirect to /verify-otp, which is not the login
page, so not every 401/403 response redirects to login. -/
theorem forbidden_redirects_to_verify_otp :
    (apiRequest "/api/v1/users/me" {} browserEnv
        (some ⟨403, "Forbidden", some "application/json",
          .ok (.objv [("detail", .strv "Email verification required")])⟩)).redirect
      = some "/verify-otp" ∧
    some "/verify-otp" ≠ some "/login" ∧
    strStartsWith "/verify-otp" "/login" = false :=
  ⟨by decide, by decide, by decide⟩

/-- C2 (amended): every 401/403 response makes apiRequest throw (the caller
is treated as unauthenticated); in a browser, 401 redirects to the login page
(with the current path as a redirect parameter), and 403 redirects to the
login page unless the error detail mentions email verification, in which case
the redirect goes to /verify-otp; outside a browser no redirect occurs. -/
theorem apiRequest_auth_redirects (endpoint : String) (options : RequestOptions)
    (env : BrowserEnv) (resp : HttpResponse) (hnok : respOk resp = false) :
    ((resp.status = 401 ∨ resp.status = 403) →
       ∃ t, (apiRequest endpoint options env (some resp)).result = .error t) ∧
    (resp.status = 401 → env.windowDefined = true →
       (apiRequest endpoint options env (some resp)).redirect
         = some ("/login" ++ (if env.currentPath ≠ "/login"
             then "?redirect=" ++ encodeURIComponent env.currentPath else ""))) ∧
    (∀ body d, resp.status = 403 → env.windowDefined = true →
       resp.jsonBody = .ok body → jsGetField body "detail" = .ok (.strv d) →
       (strIncludes (strLower d) "email verification"
         || strIncludes (strLower d) "verification required") = true →
       (apiRequest endpoint options env (some resp)).redirect = some "/verify-otp") ∧
    (∀ body d, resp.status = 403 → env.windowDefined = true →
       resp.jsonBody = .ok body → jsGetField body "detail" = .ok (.strv d) →
       (strIncludes (strLower d) "email verification"
         || strIncludes (strLower d) "verification required") = false →
       (apiRequest endpoint options env (some resp)).redirect = some "/login") ∧
    (env.windowDefined = false →
       (apiRequest endpoint options env (some resp)).redirect = none) := by
  refine ⟨?_, ?_, ?_, ?_, ?_⟩
  · intro hs
    simp only [apiRequest]
    rw [if_neg (by simp [hnok]), if_pos (by simp; omega)]
    split
    · exact ⟨_, rfl⟩
    · exact ⟨_, rfl⟩
  · intro h401 hw
    simp only [apiRequest]
    rw [if_neg (by simp [hnok]), if_pos (by simp [h401])]
    rw [h401]
    rw [handleAuthError_401 _ env hw]
  · intro body d h403 hw hb hd hinc
    simp only [apiRequest]
    rw [if_neg (by simp [hnok]), if_pos (by simp [h403])]
    rw [h403, errorInfo_snd_of_detail resp body d hb hd,
        handleAuthError_403_str d env hw, if_pos hinc]
  · intro body d h403 hw hb hd hinc
    simp only [apiRequest]
    rw [if_neg (by simp [hnok]), if_pos (by simp [h403])]
    rw [h403, errorInfo_snd_of_detail resp body d hb hd,
        handleAuthError_403_str d env hw, if_neg (by simp [hinc])]
  · intro hw
    simp only [apiRequest]
    rw [if_neg (by simp [hnok])]
    by_cases hs : (resp.status = 401 ∨ resp.status = 403)
    · rw [if_pos (by simp; omega)]
      rcases handleAuthError_no_window resp.status (errorInfo resp).2 env hw with h | h
      · rw [h]
      · rw [h]
    · rw [if_neg (by simpa using hs)]

/-- Witness for C2 at a concrete 401 response in a browser already on the
login page (no redirect query parameter is added there). -/
theorem apiRequest_auth_redirects_witness :
    respOk ⟨401, "Unauthorized", some "application/json",
        .ok (.objv [("detail", .strv "Not authenticated")])⟩ = false ∧
    (apiRequest "/api/v1/auth/me" {} (BrowserEnv.mk true "/login" none)
        (some ⟨401, "Unauthorized", some "application/json",
          .ok (.objv [("detail", .strv "Not authenticated")])⟩)).redirect
      = some "/login" :=
  ⟨rfl, by
    have h := (apiRequest_auth_redirects "/api/v1/auth/me" {}
      (BrowserEnv.mk true "/login" none)
      ⟨401, "Unauthorized", some "application/json",
        .ok (.objv [("detail", .strv "Not authenticated")])⟩ rfl).2.1 rfl rfl
    rw [h]
    decide⟩

/-- C6: a 204 response resolves with undefined and response.json() is never
invoked; on OK responses the body is parsed only when the content-type header
includes application/json, and an OK response without such a content-type
resolves with the empty-object fallback, unparsed. -/
theorem apiRequest_body_parse_discipline (endpoint : String) (options : RequestOptions)
    (env : BrowserEnv) (resp : HttpResponse) :
    (resp.status = 204 →
       (apiRequest endpoint options env (some resp)).result = .ok .jsUndefined ∧
       (apiRequest endpoint options env (some resp)).jsonParseCalls = 0) ∧
    (respOk resp = true →
       (apiRequest endpoint options env (some resp)).jsonParseCalls ≠ 0 →
       ∃ ct, resp.contentType = some ct ∧ strIncludes ct "application/json" = true) ∧
    (respOk resp = true → resp.status ≠ 204 →
       (∀ ct, resp.contentType = some ct →
          (jsTruthyStr ct && strIncludes ct "application/json") = false) →
       (apiRequest endpoint options env (some resp)).result = .ok .emptyObj ∧
       (apiRequest endpoint options env (some resp)).jsonParseCalls = 0) := by
  refine ⟨?_, ?_, ?_⟩
  · intro h204
    have hok : respOk resp = true := by
      simp [respOk, h204]
    simp only [apiRequest]
    rw [if_pos hok, if_pos h204]
    exact ⟨rfl, rfl⟩
  · intro hok hcalls
    simp only [apiRequest] at hcalls
    rw [if_pos hok] at hcalls
    by_cases h204 : resp.status = 204
    · rw [if_pos h204] at hcalls
      simp at hcalls
    · rw [if_neg h204] at hcalls
      rcases hct : resp.contentType with _ | ct
      · rw [hct] at hcalls
        simp at hcalls
      · rw [hct] at hcalls
        dsimp only at hcalls
        by_cases hj : (jsTruthyStr ct && strIncludes ct "application/json") = true
        · have hj2 := hj
          simp only [Bool.and_eq_true] at hj2
          exact ⟨ct, rfl, hj2.2⟩
        · rw [if_neg hj] at hcalls
          simp at hcalls
  · intro hok h204 hall
    simp only [apiRequest]
    rw [if_pos hok, if_neg h204]
    rcases hct : resp.contentType with _ | ct
    · exact ⟨rfl, rfl⟩
    · dsimp only
      rw [if_neg (by simp [hall ct hct])]
      exact ⟨rfl, rfl⟩

/-- Witness for C6 at a concrete 204 response and a concrete OK text/html
response. -/
theorem apiRequest_body_parse_discipline_witness :
    ((apiRequest "/api/v1/users/me" {} browserEnv
        (some ⟨204, "No Content", none, .error ()⟩)).result = .ok .jsUndefined ∧
     (apiRequest "/api/v1/users/me" {} browserEnv
        (some ⟨204, "No Content", none, .error ()⟩)).jsonParseCalls = 0) ∧
    ((apiRequest "/health" {} browserEnv
        (some ⟨200, "OK", some "text/html", .error ()⟩)).result = .ok .emptyObj ∧
     (apiRequest "/health" {} browserEnv
        (some ⟨200, "OK", some "text/html", .error ()⟩)).jsonParseCalls = 0) :=
  ⟨(apiRequest_body_parse_discipline "/api/v1/users/me" {} browserEnv
      ⟨204, "No Content", none, .error ()⟩).1 rfl,
   (apiRequest_body_parse_discipline "/health" {} browserEnv
      ⟨200, "OK", some "text/html", .error ()⟩).2.2 rfl (by decide)
      (by intro ct h; cases h; decide)⟩

/-! ### Token confinement lemmas -/

theorem apiRequest_sentHeaders (endpoint : String) (options : RequestOptions)
    (env : BrowserEnv) (fetchResult : Option HttpResponse) :
    (apiRequest endpoint options env fetchResult).sentHeaders
      = mergeHeaders [("Content-Type", "application/json")] options.headers ∧
    (apiRequest endpoint options env fetchResult).credentialsInclude = true := by
  cases fetchResult with
  | none => exact ⟨rfl, rfl⟩
  | some resp =>
    simp only [apiRequest]
    constructor <;>
    repeat first
    | rfl
    | split

theorem tokenKey_after_setUser (env : BrowserEnv) (v : String) (s : Store)
    (h : storeGet s TOKEN_KEY = none) :
    storeGet (userStorage.setUser env v s).store TOKEN_KEY = none := by
  unfold userStorage.setUser
  split
  · exact (storeGet_set_ne s USER_KEY TOKEN_KEY v (by decide)).trans h
  · exact h

theorem tokenKey_after_clear (env : BrowserEnv) (s : Store) :
    storeGet (clearAuthStorage env s).store TOKEN_KEY
      = if env.windowDefined then none else storeGet s TOKEN_KEY := by
  by_cases hw : env.windowDefined = true
  · simp only [clearAuthStorage, tokenStorage.removeToken, userStorage.removeUser, hw,
      if_pos, if_true]
    rw [storeGet_remove_ne _ USER_KEY TOKEN_KEY (by decide), storeGet_remove_self]
  · have hw2 : env.windowDefined = false := by
      cases h : env.windowDefined
      · rfl
      · exact absurd h hw
    simp [clearAuthStorage, tokenStorage.removeToken, userStorage.removeUser, hw2]

/-- C1 counterexample: the legacy localStorage-token client does store the
session token (key visera_auth_token) on login and does attach it as a Bearer
Authorization header on requests, contradicting the claim that no client-side
code stores the token or attaches it by script. -/
theorem legacy_client_stores_and_sends_token :
    storeGet (tokenLoginSuccess browserEnv ⟨"tok123", "bearer", sampleUser⟩
        { user := none, token := none, store := [], route := "/" }).store TOKEN_KEY
      = some "tok123" ∧
    headerLookup (apiRequestLegacy "/api/v1/auth/me" {} browserEnv
        (tokenLoginSuccess browserEnv ⟨"tok123", "bearer", sampleUser⟩
          { user := none, token := none, store := [], route := "/" }).store
        none).sentHeaders "Authorization"
      = some "Bearer tok123" :=
  ⟨by decide, by decide⟩

/-- C1 (amended): in the cookie-based client the token is confined to the
httpOnly cookie: apiRequest sends credentials "include" and introduces no
Authorization header (when the caller passes none), the cookie-based
AuthProvider transitions never create the visera_auth_token localStorage key,
and the context token field it renders is constantly null; the claim fails
only for the legacy localStorage-token variant still present in the sources. -/
theorem cookie_client_token_confinement :
    (∀ (endpoint : String) (options : RequestOptions) (env : BrowserEnv)
        (fetchResult : Option HttpResponse),
       headerLookup options.headers "Authorization" = none →
       headerLookup (apiRequest endpoint options env fetchResult).sentHeaders "Authorization"
           = none ∧
       (apiRequest endpoint options env fetchResult).credentialsInclude = true) ∧
    (∀ (env : BrowserEnv) (s : CookieAuthState) (resp : LoginResponse) (u : User) (ok : Bool),
       storeGet s.store TOKEN_KEY = none →
       storeGet (cookieLoginSuccess env resp s).store TOKEN_KEY = none ∧
       storeGet (cookieRefreshSuccess env u s).store TOKEN_KEY = none ∧
       storeGet (cookieRefreshFailure env s).store TOKEN_KEY = none ∧
       storeGet (cookieLogout env ok s).store TOKEN_KEY = none) ∧
    (∀ (s : CookieAuthState) (l : Bool), (cookieContextValue s l).token = none) := by
  refine ⟨?_, ?_, ?_⟩
  · intro endpoint options env fetchResult hnone
    obtain ⟨hh, hc⟩ := apiRequest_sentHeaders endpoint options env fetchResult
    refine ⟨?_, hc⟩
    rw [hh]
    unfold headerLookup at hnone ⊢
    unfold mergeHeaders
    rw [lookupAppend, hnone]
    decide
  · intro env s resp u ok h
    have hclear : storeGet (clearAuthStorage env s.store).store TOKEN_KEY = none := by
      rw [tokenKey_after_clear]
      split
      · rfl
      · exact h
    exact ⟨tokenKey_after_setUser env _ s.store h,
           tokenKey_after_setUser env _ s.store h,
           hclear, hclear⟩
  · intro s l
    rfl

/-- Witness for C1 at a concrete cookie-client call and state. -/
theorem cookie_client_token_confinement_witness :
    headerLookup (RequestOptions.mk (some "POST") none []).headers "Authorization" = none ∧
    headerLookup (apiRequest "/api/v1/auth/login" (RequestOptions.mk (some "POST") none [])
        browserEnv none).sentHeaders "Authorization" = none :=
  ⟨rfl, (cookie_client_token_confinement.1 "/api/v1/auth/login"
      (RequestOptions.mk (some "POST") none []) browserEnv none rfl).1⟩

theorem isEmpty_false_iff (t : String) : t.isEmpty = false ↔ t ≠ "" := by
  constructor
  · intro hf he
    subst he
    rw [show ("" : String).isEmpty = true from rfl] at hf
    cases hf
  · intro hne
    cases he : t.isEmpty
    · rfl
    · exact absurd ((String.isEmpty_iff t).mp he) hne

/-- C5 counterexample: a reachable state of the token-based AuthProvider
(login response carrying an empty access_token) has a non-null user and a
non-null token yet isAuthenticated is false, because !!token follows JS string
truthiness rather than non-nullness. -/
theorem token_context_nonnull_but_unauthenticated :
    TokenAuthReachable browserEnv
      (tokenLoginSuccess browserEnv ⟨"", "bearer", sampleUser⟩
        { user := none, token := (tokenStorage.getToken browserEnv []).value,
          store := [], route := "/" }) ∧
    (tokenLoginSuccess browserEnv ⟨"", "bearer", sampleUser⟩
        { user := none, token := (tokenStorage.getToken browserEnv []).value,
          store := [], route := "/" }).user ≠ none ∧
    (tokenLoginSuccess browserEnv ⟨"", "bearer", sampleUser⟩
        { user := none, token := (tokenStorage.getToken browserEnv []).value,
          store := [], route := "/" }).token ≠ none ∧
    (tokenContextValue (tokenLoginSuccess browserEnv ⟨"", "bearer", sampleUser⟩
        { user := none, token := (tokenStorage.getToken browserEnv []).value,
          store := [], route := "/" }) false).isAuthenticated = false :=
  ⟨TokenAuthReachable.login ⟨"", "bearer", sampleUser⟩ TokenAuthReachable.start,
   by decide, by decide, by decide⟩

/-- C5 (amended): the cookie-based context is authenticated exactly when its
user is non-null; the token-based context is authenticated exactly when its
user is non-null and its token is a non-null, non-empty string (JS
truthiness of the token value). -/
theorem context_isAuthenticated_iff (s : CookieAuthState) (s2 : TokenAuthState)
    (l l2 : Bool) :
    ((cookieContextValue s l).isAuthenticated = true ↔ s.user ≠ none) ∧
    ((tokenContextValue s2 l2).isAuthenticated = true ↔
       (s2.user ≠ none ∧ ∃ t, s2.token = some t ∧ t ≠ "")) := by
  constructor
  · simp [cookieContextValue, Option.isSome_iff_ne_none]
  · cases ht : s2.token with
    | none => simp [tokenContextValue, jsTruthyStrOpt, ht]
    | some t =>
      simp only [tokenContextValue, jsTruthyStrOpt, jsTruthyStr, ht, Bool.and_eq_true,
        Bool.not_eq_true', Option.isSome_iff_ne_none]
      rw [isEmpty_false_iff]
      constructor
      · rintro ⟨hu, hne⟩
        exact ⟨hu, t, rfl, hne⟩
      · rintro ⟨hu, t2, ht2, hne⟩
        injection ht2 with ht3
        subst ht3
        exact ⟨hu, hne⟩

/-- Witness for C5 at concrete context states. -/
theorem context_isAuthenticated_iff_witness :
    (cookieContextValue ⟨some sampleUser, [], "/dashboard"⟩ false).isAuthenticated = true :=
  (context_isAuthenticated_iff ⟨some sampleUser, [], "/dashboard"⟩
     ⟨none, none, [], "/"⟩ false false).1.mpr (by decide)

/-- C9: after logout the user (and token, where tracked) is null, both
localStorage keys visera_auth_token and visera_user are removed, and the
router is at /login; the cookie-variant postcondition is identical whether
the backend logout call succeeded or failed. -/
theorem logout_clears_auth (env : BrowserEnv) (s : CookieAuthState)
    (s2 : TokenAuthState) (ok : Bool) (hw : env.windowDefined = true) :
    ((cookieLogout env ok s).user = none ∧
     storeGet (cookieLogout env ok s).store TOKEN_KEY = none ∧
     storeGet (cookieLogout env ok s).store USER_KEY = none ∧
     (cookieLogout env ok s).route = "/login" ∧
     cookieLogout env false s = cookieLogout env true s) ∧
    ((tokenLogout env s2).user = none ∧
     (tokenLogout env s2).token = none ∧
     storeGet (tokenLogout env s2).store TOKEN_KEY = none ∧
     storeGet (tokenLogout env s2).store USER_KEY = none ∧
     (tokenLogout env s2).route = "/login") := by
  have hclear : ∀ st : Store,
      storeGet (clearAuthStorage env st).store TOKEN_KEY = none ∧
      storeGet (clearAuthStorage env st).store USER_KEY = none := by
    intro st
    constructor
    · rw [tokenKey_after_clear]
      simp [hw]
    · simp only [clearAuthStorage, tokenStorage.removeToken, userStorage.removeUser, hw]
      simp only [if_true]
      exact storeGet_remove_self _ USER_KEY
  exact ⟨⟨rfl, (hclear s.store).1, (hclear s.store).2, rfl, rfl⟩,
         ⟨rfl, rfl, (hclear s2.store).1, (hclear s2.store).2, rfl⟩⟩

/-- Witness for C9 at a concrete browser state with stored auth data and a
failing backend logout. -/
theorem logout_clears_auth_witness :
    browserEnv.windowDefined = true ∧
    (cookieLogout browserEnv false
        ⟨some sampleUser, [(TOKEN_KEY, "tok"), (USER_KEY, "u")], "/settings"⟩).user = none :=
  ⟨rfl, (logout_clears_auth browserEnv
      ⟨some sampleUser, [(TOKEN_KEY, "tok"), (USER_KEY, "u")], "/settings"⟩
      ⟨some sampleUser, some "tok", [(TOKEN_KEY, "tok")], "/settings"⟩
      false rfl).1.1⟩

/-! ### OTP page invariants -/

/-- A well-formed OTP entry: empty, or a single uppercase alphanumeric. -/
def otpEntryOk (e : String) : Prop :=
  e.data = [] ∨ (e.data.length = 1 ∧ ∀ c ∈ e.data, isUpperAlnum c = true)

/-- Invariant of the OTP input state: six entries, each well formed. -/
def OtpInv (otp : List String) : Prop :=
  otp.length = 6 ∧ ∀ e ∈ otp, otpEntryOk e

theorem sanitizeOtpChar_ok (v : String) : otpEntryOk (sanitizeOtpChar v) := by
  unfold sanitizeOtpChar otpEntryOk
  rcases hl : ((v.data.filter isAsciiAlnum).map Char.toUpper).take 1 with _ | ⟨c, rest⟩
  · left
    simp [hl]
  · right
    have hlen : (((v.data.filter isAsciiAlnum).map Char.toUpper).take 1).length ≤ 1 :=
      List.length_take_le 1 _
    rw [hl] at hlen
    simp only [List.length_cons] at hlen
    have hrest : rest = [] := by
      cases rest with
      | nil => rfl
      | cons a b => simp at hlen
    subst hrest
    refine ⟨by simp [hl], ?_⟩
    intro c2 hc2
    simp only [hl, List.mem_singleton] at hc2
    rw [hc2]
    have hmem : c ∈ ((v.data.filter isAsciiAlnum).map Char.toUpper).take 1 := by
      rw [hl]
      exact List.mem_singleton_self c
    have hmem2 := List.mem_of_mem_take hmem
    obtain ⟨a, ha, rfl⟩ := List.mem_map.mp hmem2
    exact upper_of_alnum a (List.mem_filter.mp ha).2

theorem sanitizeOtpPaste_chars (t : String) (c : Char)
    (hc : c ∈ (sanitizeOtpPaste t).data) : isUpperAlnum c = true := by
  unfold sanitizeOtpPaste at hc
  simp only [String.data] at hc
  have hmem := List.mem_of_mem_take hc
  obtain ⟨a, ha, rfl⟩ := List.mem_map.mp hmem
  exact upper_of_alnum a (List.mem_filter.mp ha).2

theorem handleOtpChange_inv (otp : List String) (i : Nat) (v : String)
    (h : OtpInv otp) : OtpInv (handleOtpChange otp i v) := by
  obtain ⟨hlen, hall⟩ := h
  refine ⟨by rw [handleOtpChange, List.length_set, hlen], ?_⟩
  intro e he
  rcases List.mem_or_eq_of_mem_set he with h1 | h2
  · exact hall e h1
  · rw [h2]
    exact sanitizeOtpChar_ok v

theorem handleOtpPaste_inv (otp : List String) (t : String)
    (h : OtpInv otp) : OtpInv (handleOtpPaste otp t) := by
  obtain ⟨hlen, hall⟩ := h
  unfold handleOtpPaste
  have key : ∀ (idxs : List Nat) (acc : List String), (∀ e ∈ acc, otpEntryOk e) →
      (idxs.foldl (fun a i => a.set i (match (sanitizeOtpPaste t).data.get? i with
          | some c => String.singleton c
          | none => "")) acc).length = acc.length ∧
      (∀ e ∈ idxs.foldl (fun a i => a.set i (match (sanitizeOtpPaste t).data.get? i with
          | some c => String.singleton c
          | none => "")) acc, otpEntryOk e) := by
    intro idxs
    induction idxs with
    | nil => exact fun acc hacc => ⟨rfl, hacc⟩
    | cons i rest ih =>
      intro acc hacc
      have hstep : ∀ e ∈ acc.set i (match (sanitizeOtpPaste t).data.get? i with
          | some c => String.singleton c
          | none => ""), otpEntryOk e := by
        intro e he
        rcases List.mem_or_eq_of_mem_set he with h1 | h2
        · exact hacc e h1
        · rw [h2]
          rcases hg : (sanitizeOtpPaste t).data.get? i with _ | c
          · left
            rfl
          · right
            refine ⟨rfl, ?_⟩
            intro c2 hc2
            have hsing : (String.singleton c).data = [c] := rfl
            rw [hsing, List.mem_singleton] at hc2
            rw [hc2]
            exact sanitizeOtpPaste_chars t c (List.get?_mem hg)
      obtain ⟨hl2, ha2⟩ := ih _ hstep
      refine ⟨?_, ha2⟩
      rw [List.length_set] at hl2
      exact hl2
  obtain ⟨hl2, ha2⟩ := key (List.range 6) otp hall
  rw [hlen] at hl2
  exact ⟨hl2, ha2⟩

theorem otpReachable_inv (otp : List String) (h : OtpReachable otp) : OtpInv otp := by
  induction h with
  | start =>
    refine ⟨rfl, ?_⟩
    intro e he
    simp only [initialOtp, List.mem_cons, List.not_mem_nil, or_false, or_self] at he
    rw [he]
    left
    rfl
  | change index value hprev ih => exact handleOtpChange_inv _ index value ih
  | paste text hprev ih => exact handleOtpPaste_inv _ text ih
  | reset hprev ih =>
    refine ⟨rfl, ?_⟩
    intro e he
    simp only [initialOtp, List.mem_cons, List.not_mem_nil, or_false, or_self] at he
    rw [he]
    left
    rfl

theorem foldl_append_data (l : List String) (s : String) :
    (l.foldl (fun r t => r ++ t) s).data = s.data ++ (l.map String.data).flatten := by
  induction l generalizing s with
  | nil => simp
  | cons a rest ih =>
    simp only [List.foldl_cons, List.map_cons, List.flatten_cons]
    rw [ih (s ++ a), String.data_append]
    simp [List.append_assoc]

theorem join_data (l : List String) :
    (String.join l).data = (l.map String.data).flatten := by
  have := foldl_append_data l ""
  simpa [String.join] using this

/-- C7: on every reachable OTP-input state, the verify-OTP page sends the
verification request only with a 6-character code every character of which is
an uppercase alphanumeric produced by sanitization, and with a non-empty
email; when the joined code is shorter than 6 the inline length error is
shown and no request goes out, and with no email known no request goes out
either. -/
theorem verify_otp_submit_guard (otp : List String) (email : String)
    (h : OtpReachable otp) :
    (∀ e c, handleSubmit otp email = .request e c →
       c.length = 6 ∧ (∀ ch ∈ c.data, isUpperAlnum ch = true) ∧
       e = email ∧ email ≠ "") ∧
    ((otpCode otp).length < 6 →
       handleSubmit otp email = .inlineError "Please enter the complete 6-digit code") ∧
    (email = "" → ∀ e c, handleSubmit otp email ≠ .request e c) := by
  obtain ⟨hlen, hall⟩ := otpReachable_inv otp h
  have hchars : ∀ ch ∈ (otpCode otp).data, isUpperAlnum ch = true := by
    intro ch hch
    rw [otpCode, join_data] at hch
    obtain ⟨l2, hl2, hch2⟩ := List.mem_flatten.mp hch
    obtain ⟨entry, hentry, rfl⟩ := List.mem_map.mp hl2
    rcases hall entry hentry with hh | ⟨_, hh⟩
    · rw [hh] at hch2
      cases hch2
    · exact hh ch hch2
  refine ⟨?_, ?_, ?_⟩
  · intro e c hreq
    unfold handleSubmit at hreq
    by_cases h6 : (otpCode otp).length ≠ 6
    · rw [if_pos h6] at hreq
      cases hreq
    · rw [if_neg h6] at hreq
      by_cases hm : email.isEmpty = true
      · rw [if_pos hm] at hreq
        cases hreq
      · rw [if_neg hm] at hreq
        injection hreq with he hc
        push_neg at h6
        have hm2 : email ≠ "" := by
          refine (isEmpty_false_iff email).mp ?_
          cases hie : email.isEmpty
          · rfl
          · exact absurd hie hm
        subst hc
        exact ⟨h6, hchars, he.symm, hm2⟩
  · intro hlt
    unfold handleSubmit
    rw [if_pos (by omega)]
  · intro hmail e c
    subst hmail
    unfold handleSubmit
    by_cases h6 : (otpCode otp).length ≠ 6
    · rw [if_pos h6]
      intro heq
      cases heq
    · rw [if_neg h6, if_pos (show ("" : String).isEmpty = true from rfl)]
      intro heq
      cases heq

/-- Witness for C7: pasting "abc123" into the fresh OTP form and submitting
with an email present sends the sanitized uppercase 6-character code. -/
theorem verify_otp_submit_guard_witness :
    "ABC123".length = 6 ∧ (∀ ch ∈ "ABC123".data, isUpperAlnum ch = true) ∧
    "alice@example.com" = "alice@example.com" ∧ "alice@example.com" ≠ "" :=
  (verify_otp_submit_guard (handleOtpPaste initialOtp "abc123") "alice@example.com"
      (OtpReachable.paste "abc123" OtpReachable.start)).1
    "alice@example.com" "ABC123" (by decide)
